import Mathlib

/-
Verification of the canvas package model (upstream/client/lib/canvas/package.py).

The Python module is embedded shallowly: every definition below mirrors one
function or method of the source, with the source line numbers recorded in the
doc comments.  Machine-level details that Lean cannot observe (the numeric
value returned by the Python hash function) are modelled by the exact argument
the source passes to that function.  Python exceptions are modelled by
Except String results.
-/

namespace Canvas

/-- package.py line 29: ACTION_PIN = 0x80. -/
def ACTION_PIN : Nat := 0x80

/-- package.py line 30: ACTION_EXCLUDE = 0x02. -/
def ACTION_EXCLUDE : Nat := 0x02

/-- package.py line 31: ACTION_INCLUDE = 0x01. -/
def ACTION_INCLUDE : Nat := 0x01

/-- The Package entity (package.py lines 42-48): optional name, epoch,
version, release, arch and the action bitmask. -/
structure Package where
  name : Option String
  epoch : Option String
  version : Option String
  release : Option String
  arch : Option String
  action : Nat
deriving DecidableEq, Repr

/-- The keyword defaults of Package.__init__ (package.py lines 43-48):
every field None, action ACTION_INCLUDE. -/
def Package.default : Package :=
  { name := none, epoch := none, version := none, release := none,
    arch := none, action := ACTION_INCLUDE }

/-- Package.__eq__ restricted to Package operands (package.py lines 60-65):
if either arch is None compare names only, else compare names and archs. -/
def pkgEq (a b : Package) : Bool :=
  if a.arch = none ∨ b.arch = none then decide (a.name = b.name)
  else decide (a.name = b.name ∧ a.arch = b.arch)

/-- Python str formatting of an optional string: None prints as "None". -/
def pyFormatOpt : Option String → String
  | none => "None"
  | some s => s

/-- Package.__hash__ (package.py lines 70-77) modelled by the argument passed
to the Python hash builtin: the bare name object when arch is None, else the
formatted string name.arch. -/
def Package.hashSource (p : Package) : Sum (Option String) String :=
  match p.arch with
  | none => Sum.inl p.name
  | some a => Sum.inr (pyFormatOpt p.name ++ "." ++ a)

/-- Python regex class \s: the six ASCII whitespace characters. -/
def pyIsSpace (c : Char) : Bool :=
  c == ' ' || c == '\t' || c == '\n' || c == '\r' || c.toNat == 11 || c.toNat == 12

/-- Character class of the name group of RE_PACKAGE: [^#@:\s]. -/
def isNameChar (c : Char) : Bool :=
  !(c == '#' || c == '@' || c == ':' || pyIsSpace c)

/-- Python regex class \w over the ASCII inputs used here. -/
def isWordChar (c : Char) : Bool :=
  c.isAlphanum || c == '_'

/-- The six capture groups of RE_PACKAGE (package.py line 33). -/
structure MatchGroups where
  sign : Option Char
  name : String
  epoch : Option String
  version : Option String
  release : Option String
  arch : Option String
deriving DecidableEq, Repr

/-- The @([^-]+)-([^:]) tail of the evr group of RE_PACKAGE: a non-empty run
of non-dash characters, a dash, then exactly ONE character that is not a
colon.  Note the source regex has no + on the release class, so the release
group consumes a single character. -/
def matchVR (l : List Char) : Option (String × String × List Char) :=
  let v := l.takeWhile (fun c => !(c == '-'))
  match l.dropWhile (fun c => !(c == '-')) with
  | '-' :: c :: rest =>
    if v.isEmpty || c == ':' then none
    else some (v.asString, c.toString, rest)
  | _ => none

/-- The optional evr group (?:(?:#(\d+))?@([^-]+)-([^:]))? of RE_PACKAGE.
When the leading character is a hash the digits and a following at-sign are
required (if they are missing, skipping the optional epoch leaves the hash
unmatched by the at-sign, so the whole group fails). -/
def matchEvr (l : List Char) : Option (Option String × String × String × List Char) :=
  match l with
  | '#' :: rest =>
    let ds := rest.takeWhile Char.isDigit
    if ds.isEmpty then none
    else
      match rest.dropWhile Char.isDigit with
      | '@' :: r2 => (matchVR r2).map (fun vr => (some ds.asString, vr))
      | _ => none
  | '@' :: r2 => (matchVR r2).map (fun vr => (none, vr))
  | _ => none

/-- The optional arch group (?::(\w+))? of RE_PACKAGE. -/
def matchArch (l : List Char) : Option String :=
  match l with
  | ':' :: rest =>
    let w := rest.takeWhile isWordChar
    if w.isEmpty then none else some w.asString
  | _ => none

/-- RE_PACKAGE (package.py line 33) applied with re.match:
([+~])?([^#@:\s]+)(?:(?:#(\d+))?@([^-]+)-([^:]))?(?::(\w+))?
anchored at the start of the string only.  The optional sign is consumed
exactly when a name character follows it (otherwise the regex backtracks and
the sign character itself starts the name, as it belongs to [^#@:\s]).
The match fails only when no name character is available. -/
def rePackageMatch (s : String) : Option MatchGroups :=
  let l := s.toList
  let sr : Option Char × List Char :=
    match l with
    | c :: r =>
      if (c == '+' || c == '~') && (match r with | d :: _ => isNameChar d | [] => false) then
        (some c, r)
      else (none, l)
    | [] => (none, [])
  let nm := sr.2.takeWhile isNameChar
  if nm.isEmpty then none
  else
    let rest2 := sr.2.dropWhile isNameChar
    let evr : Option String × Option String × Option String × List Char :=
      match matchEvr rest2 with
      | some (e, v, r, rem) => (e, some v, some r, rem)
      | none => (none, none, none, rest2)
    some { sign := sr.1, name := nm.asString, epoch := evr.1,
           version := evr.2.1, release := evr.2.2.1, arch := matchArch evr.2.2.2 }

/-- The string branch of Package.parse (package.py lines 111-125): on a match
the action becomes EXCLUDE exactly for a tilde sign (INCLUDE otherwise) and
all five fields are overwritten with their groups (absent groups are None);
on no match the package is left unchanged. -/
def Package.parseStr (p : Package) (data : String) : Package :=
  match rePackageMatch data with
  | none => p
  | some m =>
    { p with
      action := if m.sign == some '~' then ACTION_EXCLUDE else ACTION_INCLUDE,
      name := some m.name,
      epoch := m.epoch,
      version := m.version,
      release := m.release,
      arch := m.arch }

/-- A compact dictionary restricted to the six keys the dict branch of
Package.parse reads; none models an absent key. -/
structure PkgDict where
  n : Option String
  e : Option String
  v : Option String
  r : Option String
  a : Option String
  z : Option Nat
deriving DecidableEq, Repr

/-- The empty compact dictionary. -/
def PkgDict.empty : PkgDict :=
  { n := none, e := none, v := none, r := none, a := none, z := none }

/-- The dict branch of Package.parse (package.py lines 103-109).  The keys
n, e, v, r, a default to the current field value when absent; the key z
defaults to ACTION_INCLUDE (line 109), NOT to the current action. -/
def Package.parseDict (p : Package) (d : PkgDict) : Package :=
  { name := match d.n with | some x => some x | none => p.name,
    epoch := match d.e with | some x => some x | none => p.epoch,
    version := match d.v with | some x => some x | none => p.version,
    release := match d.r with | some x => some x | none => p.release,
    arch := match d.a with | some x => some x | none => p.arch,
    action := match d.z with | some x => x | none => ACTION_INCLUDE }

/-- The Python TypeError raised by adding a string to None. -/
def typeErrorMsg : String := "TypeError: unsupported operand types for +=: NoneType and str"

/-- Package.to_pkg_spec (package.py lines 146-172).  The local evr starts as
None and is only given a string value by the epoch branch (line 157); the
version branches on lines 159-162 then append to evr with +=, which raises
TypeError when evr is still None, i.e. whenever version is set but epoch is
not.  On success the result is name ++ evr ++ optional dot-arch suffix. -/
def Package.to_pkg_spec (p : Package) : Except String String :=
  match p.name with
  | none => Except.ok ""
  | some nm =>
    let evr0 : Option String := match p.epoch with | some e => some (e ++ ":") | none => none
    let step : Except String (Option String) :=
      match p.version, p.release with
      | some v, some r =>
        match evr0 with
        | some s => Except.ok (some (s ++ v ++ "-" ++ r))
        | none => Except.error typeErrorMsg
      | some v, none =>
        match evr0 with
        | some s => Except.ok (some (s ++ v))
        | none => Except.error typeErrorMsg
      | none, _ => Except.ok evr0
    match step with
    | Except.error e => Except.error e
    | Except.ok evr =>
      let f := match evr with | some s => nm ++ s | none => nm
      Except.ok (match p.arch with | some a => f ++ "." ++ a | none => f)

/-- PackageSet.__contains__ over the backing list (package.py lines 194-195):
Python list membership compares each element to the probe with __eq__. -/
def memEq (s : List Package) (item : Package) : Bool :=
  s.any (fun x => pkgEq x item)

/-- PackageSet.add for Package arguments (package.py lines 209-220): append
when no equal entry exists; otherwise, when the new item has an arch, replace
every entry with the same raw name and no arch; otherwise do nothing. -/
def PackageSet.add (s : List Package) (item : Package) : List Package :=
  if memEq s item = false then s ++ [item]
  else if item.arch ≠ none then
    s.map (fun x => if x.name = item.name ∧ x.arch = none then item else x)
  else s

/-- Python list.remove: drop the first element equal to the probe; used by
PackageSet.discard with the ValueError swallowed (package.py lines 226-230). -/
def PackageSet.removeFirst : List Package → Package → List Package
  | [], _ => []
  | x :: xs, it => if pkgEq x it then xs else x :: PackageSet.removeFirst xs it

/-- PackageSet.discard for Package arguments (package.py lines 222-230). -/
def PackageSet.discard (s : List Package) (item : Package) : List Package :=
  PackageSet.removeFirst s item

/-- PackageSet.difference for PackageSet arguments (package.py lines 232-249):
a pair of fresh sets built by adding the entries unique to each side. -/
def PackageSet.difference (s other : List Package) : List Package × List Package :=
  (s.foldl (fun acc x => if memEq other x then acc else PackageSet.add acc x) [],
   other.foldl (fun acc x => if memEq s x then acc else PackageSet.add acc x) [])

/-- PackageSet.update (package.py lines 267-272): the isinstance guard on
line 268 tests a variable named other that is not defined anywhere in the
method, so every call raises NameError before the discard and add on lines
271-272 can run. -/
def nameErrorMsg : String := "NameError: name other is not defined"

/-- PackageSet.update, see nameErrorMsg. -/
def PackageSet.update (_s : List Package) (_item : Package) : Except String (List Package) :=
  Except.error nameErrorMsg

/-- A universe of Python argument values for the dynamically typed
collection operations. -/
inductive PyVal where
  | pkg (p : Package)
  | pset (s : List Package)
  | str (s : String)
  | int (n : Int)
  | pynone
deriving Repr

/-- package.py line 211. -/
def typeErrPkg : String := "TypeError: Not a Package."

/-- package.py lines 234 and 259. -/
def typeErrSet : String := "TypeError: Not a PackageSet."

/-- package.py line 253. -/
def unionZeroErr : String := "Exception: No PackageSets defined for union."

/-- PackageSet.add with its runtime type guard (package.py lines 209-211). -/
def PackageSet.addVal (s : List Package) (v : PyVal) : Except String (List Package) :=
  match v with
  | PyVal.pkg p => Except.ok (PackageSet.add s p)
  | _ => Except.error typeErrPkg

/-- PackageSet.discard with its runtime type guard (package.py lines 222-224). -/
def PackageSet.discardVal (s : List Package) (v : PyVal) : Except String (List Package) :=
  match v with
  | PyVal.pkg p => Except.ok (PackageSet.discard s p)
  | _ => Except.error typeErrPkg

/-- PackageSet.difference with its runtime type guard (package.py lines 232-234). -/
def PackageSet.differenceVal (s : List Package) (v : PyVal) :
    Except String (List Package × List Package) :=
  match v with
  | PyVal.pset o => Except.ok (PackageSet.difference s o)
  | _ => Except.error typeErrSet

/-- The argument loop of PackageSet.union (package.py lines 257-263): each
argument is type checked at the top of its iteration, then its entries are
added to the accumulator. -/
def PackageSet.unionGo : List Package → List PyVal → Except String (List Package)
  | u, [] => Except.ok u
  | u, PyVal.pset o :: rest => PackageSet.unionGo (o.foldl PackageSet.add u) rest
  | _, _ :: _ => Except.error typeErrSet

/-- PackageSet.union (package.py lines 251-265): zero arguments raise, the
accumulator is seeded by re-adding all of the own entries, then each argument
set is folded in through add. -/
def PackageSet.union (s : List Package) (args : List PyVal) : Except String (List Package) :=
  if args.isEmpty then Except.error unionZeroErr
  else PackageSet.unionGo (s.foldl PackageSet.add []) args

/-- The Repository entity (package.py lines 276-296). -/
structure Repository where
  name : Option String
  stub : Option String
  baseurl : Option (List String)
  mirrorlist : Option String
  metalink : Option String
  gpgkey : Option String
  enabled : Option Bool
  gpgcheck : Option Bool
  cost : Option Int
  exclude : Option String
  install : Option Bool
  exclude_packages : Option (List String)
  include_packages : Option (List String)
  priority : Option Int
  meta_expired : Option Bool
deriving Repr

/-- The keyword defaults of Repository.__init__: every field None. -/
def Repository.default : Repository :=
  { name := none, stub := none, baseurl := none, mirrorlist := none,
    metalink := none, gpgkey := none, enabled := none, gpgcheck := none,
    cost := none, exclude := none, install := none, exclude_packages := none,
    include_packages := none, priority := none, meta_expired := none }

/-- The AttributeError raised on package.py lines 395 and 398: join is called
on the exclude_packages / include_packages list, but Python lists have no
join method (join is a str method). -/
def attrErrJoin : String := "AttributeError: list object has no attribute join"

/-- Repository.to_kickstart (package.py lines 376-403).  The name clause
renders the stub (line 380).  Exactly one URL clause is chosen with the
precedence baseurl (first element, list non-empty) over mirrorlist over
metalink (lines 382-389; metalink is also rendered with the mirrorlist
prefix).  Then cost, then the package list clauses, then install.  A set
exclude_packages or include_packages raises AttributeError (lines 395, 398)
because join is called on a list; line 398 would also label the include list
with the exclude_packages flag. -/
def Repository.to_kickstart (r : Repository) : Except String String :=
  let s0 := "repo"
  let s1 := match r.name with
    | some _ => s0 ++ " --name=\"" ++ pyFormatOpt r.stub ++ "\""
    | none => s0
  let s2 := match r.baseurl with
    | some (u :: _) => s1 ++ " --baseurl=" ++ u
    | _ =>
      match r.mirrorlist with
      | some m => s1 ++ " --mirrorlist=" ++ m
      | none =>
        match r.metalink with
        | some m => s1 ++ " --mirrorlist=" ++ m
        | none => s1
  let s3 := match r.cost with
    | some c => s2 ++ " --cost=" ++ toString c
    | none => s2
  match r.exclude_packages with
  | some _ => Except.error attrErrJoin
  | none =>
    match r.include_packages with
    | some _ => Except.error attrErrJoin
    | none =>
      Except.ok (match r.install with | some _ => s3 ++ " --install" | none => s3)

/-- Package(name="foo"). -/
def pkgFoo : Package :=
  { Package.default with name := some "foo" }

/-- Package(name="foo", arch="x86_64"). -/
def pkgFooX : Package :=
  { Package.default with name := some "foo", arch := some "x86_64" }

/-- Package(name="foo", arch="i686"). -/
def pkgFooI : Package :=
  { Package.default with name := some "foo", arch := some "i686" }

/-- A Repository with both baseurl and mirrorlist set. -/
def repoBoth : Repository :=
  { Repository.default with
      name := some "fedora",
      stub := some "fedora",
      baseurl := some ["http://x"],
      mirrorlist := some "http://y" }

/-- repoBoth with an exclude_packages list. -/
def repoBothEx : Repository :=
  { repoBoth with exclude_packages := some ["a", "b"] }

/-- Characterisation of Package.__eq__: equality holds exactly when the names
agree and either arch is unset or the archs agree. -/
theorem pkgEq_true_iff (a b : Package) :
    pkgEq a b = true ↔
      (a.name = b.name ∧ (a.arch = none ∨ b.arch = none ∨ a.arch = b.arch)) := by
  unfold pkgEq
  by_cases h : a.arch = none ∨ b.arch = none
  · rw [if_pos h]
    simp only [decide_eq_true_eq]
    constructor
    · intro hn
      refine ⟨hn, ?_⟩
      rcases h with h1 | h1
      · exact Or.inl h1
      · exact Or.inr (Or.inl h1)
    · exact fun hh => hh.1
  · rw [if_neg h]
    push_neg at h
    simp only [decide_eq_true_eq]
    constructor
    · rintro ⟨hn, ha⟩
      exact ⟨hn, Or.inr (Or.inr ha)⟩
    · rintro ⟨hn, h1 | h1 | h1⟩
      · exact absurd h1 h.1
      · exact absurd h1 h.2
      · exact ⟨hn, h1⟩

/-- Package.__eq__ is symmetric. -/
theorem pkgEq_comm (a b : Package) : pkgEq a b = pkgEq b a := by
  cases hab : pkgEq a b <;> cases hba : pkgEq b a
  · rfl
  · exfalso
    rcases (pkgEq_true_iff b a).mp hba with ⟨hn, hd⟩
    have hab2 : pkgEq a b = true := by
      rw [pkgEq_true_iff]
      refine ⟨hn.symm, ?_⟩
      rcases hd with h1 | h1 | h1
      · exact Or.inr (Or.inl h1)
      · exact Or.inl h1
      · exact Or.inr (Or.inr h1.symm)
    rw [hab] at hab2
    exact Bool.noConfusion hab2
  · exfalso
    rcases (pkgEq_true_iff a b).mp hab with ⟨hn, hd⟩
    have hba2 : pkgEq b a = true := by
      rw [pkgEq_true_iff]
      refine ⟨hn.symm, ?_⟩
      rcases hd with h1 | h1 | h1
      · exact Or.inr (Or.inl h1)
      · exact Or.inl h1
      · exact Or.inr (Or.inr h1.symm)
    rw [hba] at hba2
    exact Bool.noConfusion hba2
  · rfl

/-- In a PackageSet whose entries are pairwise unequal, no entry other than
the one at index k can carry the name of the item and an unset arch. -/
theorem pkgset_no_other_archless (s : List Package) (item : Package)
    (hinv : List.Pairwise (fun a b => pkgEq a b = false) s)
    (k : Nat) (hk : k < s.length)
    (hname : (s.get ⟨k, hk⟩).name = item.name)
    (i : Nat) (hi : i < s.length) (hne : i ≠ k) :
    ¬((s.get ⟨i, hi⟩).name = item.name ∧ (s.get ⟨i, hi⟩).arch = none) := by
  rintro ⟨hn, ha⟩
  have heq : pkgEq (s.get ⟨i, hi⟩) (s.get ⟨k, hk⟩) = true := by
    rw [pkgEq_true_iff]
    exact ⟨hn.trans hname.symm, Or.inl ha⟩
  have hpw := List.pairwise_iff_get.mp hinv
  rcases Nat.lt_or_ge i k with hlt | hge
  · have hf := hpw ⟨i, hi⟩ ⟨k, hk⟩ (Fin.mk_lt_mk.mpr hlt)
    exact Bool.noConfusion (heq.symm.trans hf)
  · have hlt2 : k < i := Nat.lt_of_le_of_ne hge (fun h => hne h.symm)
    have hf := hpw ⟨k, hk⟩ ⟨i, hi⟩ (Fin.mk_lt_mk.mpr hlt2)
    rw [pkgEq_comm] at hf
    exact Bool.noConfusion (heq.symm.trans hf)

/-- C1: PackageSet.add(item) appends item when no equal entry exists
(preserving insertion order); when an equal entry exists it replaces the
existing entry only if the existing entry has no arch and item has an arch
(arch-promotion), and otherwise is a silent no-op; and adding
Package(name="foo") and Package(name="foo", arch="x86_64") to an empty set in
either order yields a set of size 1 whose sole member has arch x86_64. -/
theorem claim_C1_add (s : List Package) (item : Package)
    (hinv : List.Pairwise (fun a b => pkgEq a b = false) s) :
    (memEq s item = false → PackageSet.add s item = s ++ [item]) ∧
    (∀ k, ∀ hk : k < s.length, pkgEq (s.get ⟨k, hk⟩) item = true →
      (((s.get ⟨k, hk⟩).arch = none ∧ item.arch ≠ none) →
        PackageSet.add s item = s.set k item) ∧
      (¬((s.get ⟨k, hk⟩).arch = none ∧ item.arch ≠ none) →
        PackageSet.add s item = s)) ∧
    (PackageSet.add (PackageSet.add [] pkgFoo) pkgFooX = [pkgFooX] ∧
      PackageSet.add (PackageSet.add [] pkgFooX) pkgFoo = [pkgFooX] ∧
      pkgFooX.arch = some "x86_64") := by
  refine ⟨?_, ?_, by decide⟩
  · intro hmem
    simp [PackageSet.add, hmem]
  · intro k hk hkeq
    have hname : (s.get ⟨k, hk⟩).name = item.name := ((pkgEq_true_iff _ _).mp hkeq).1
    have hmemT : memEq s item = true := by
      unfold memEq
      rw [List.any_eq_true]
      exact ⟨s.get ⟨k, hk⟩, List.get_mem s k hk, hkeq⟩
    constructor
    · rintro ⟨hknone, hitem⟩
      have hadd : PackageSet.add s item =
          s.map (fun x => if x.name = item.name ∧ x.arch = none then item else x) := by
        simp [PackageSet.add, hmemT, hitem]
      rw [hadd]
      apply List.ext_getElem
      · simp
      · intro i h1 h2
        simp only [List.getElem_map, List.getElem_set]
        by_cases hik : k = i
        · subst hik
          exact (if_pos ⟨hname, hknone⟩).trans (if_pos rfl).symm
        · have hi2 : i < s.length := by simpa using h1
          have hcnd := pkgset_no_other_archless s item hinv k hk hname i hi2
            (fun h => hik h.symm)
          exact (if_neg hcnd).trans (if_neg hik).symm
    · intro hcond
      by_cases hinone : item.arch = none
      · simp [PackageSet.add, hmemT, hinone]
      · have harchk : ¬((s.get ⟨k, hk⟩).arch = none) := fun h => hcond ⟨h, hinone⟩
        have hadd : PackageSet.add s item =
            s.map (fun x => if x.name = item.name ∧ x.arch = none then item else x) := by
          simp [PackageSet.add, hmemT, hinone]
        rw [hadd]
        apply List.ext_getElem
        · simp
        · intro i h1 h2
          simp only [List.getElem_map]
          by_cases hik : k = i
          · subst hik
            exact if_neg (fun h => harchk h.2)
          · have hi2 : i < s.length := by simpa using h1
            have hcnd := pkgset_no_other_archless s item hinv k hk hname i hi2
              (fun h => hik h.symm)
            exact if_neg hcnd

/-- C1 witness: promotion at a concrete input. -/
theorem claim_C1_add_witness :
    PackageSet.add [pkgFoo] pkgFooX = [pkgFoo].set 0 pkgFooX :=
  ((claim_C1_add [pkgFoo] pkgFooX (List.pairwise_singleton _ _)).2.1 0
      (by decide) (by decide)).1 ⟨rfl, by decide⟩

/-- C2 (amended): Package equality holds iff the names match and at least one
arch is None or both archs match; the hash input is derived from the name
alone when arch is unset and from name.arch otherwise, so packages with equal
name AND equal arch hash alike — but equality does NOT imply equal hashes
(see the counterexample). -/
theorem claim_C2_eq_hash (a b : Package) :
    (pkgEq a b = true ↔
      (a.name = b.name ∧ (a.arch = none ∨ b.arch = none ∨ a.arch = b.arch))) ∧
    (a.name = b.name → a.arch = b.arch → Package.hashSource a = Package.hashSource b) := by
  refine ⟨pkgEq_true_iff a b, ?_⟩
  intro hn ha
  cases harch : a.arch with
  | none =>
    have hb : b.arch = none := by rw [← ha, harch]
    simp [Package.hashSource, harch, hb, hn]
  | some x =>
    have hb : b.arch = some x := by rw [← ha, harch]
    simp [Package.hashSource, harch, hb, hn]

/-- C2 witness: the equality characterisation and hash congruence applied at
concrete packages. -/
theorem claim_C2_eq_hash_witness :
    Package.hashSource pkgFooX = Package.hashSource pkgFooX ∧
      pkgEq pkgFoo pkgFooX = true :=
  ⟨(claim_C2_eq_hash pkgFooX pkgFooX).2 rfl rfl,
   (claim_C2_eq_hash pkgFoo pkgFooX).1.mpr (by decide)⟩

/-- C2 counterexample: Package(name="foo") and Package(name="foo",
arch="x86_64") are equal, yet their hash inputs differ (hash of the name
object versus hash of the string foo.x86_64), so hash is not congruent with
equality. -/
theorem claim_C2_counterexample :
    pkgEq pkgFoo pkgFooX = true ∧
      Package.hashSource pkgFoo ≠ Package.hashSource pkgFooX := by decide

/-- C3: parsing "~foo#1@2.0-1.fc21:x86_64" does NOT assign the spec-string
parts as the claim says: the release group of RE_PACKAGE matches exactly one
character, so release becomes "1" and the arch group never matches (the
regex match stops before ".fc21"), while a one-character release such as in
"~bar#7@2-3:i686" parses fully. -/
theorem claim_C3_parse_truncates_release :
    Package.parseStr Package.default "~foo#1@2.0-1.fc21:x86_64" =
      { name := some "foo", epoch := some "1", version := some "2.0",
        release := some "1", arch := none, action := ACTION_EXCLUDE } ∧
    Package.parseStr Package.default "~bar#7@2-3:i686" =
      { name := some "bar", epoch := some "7", version := some "2",
        release := some "3", arch := some "i686", action := ACTION_EXCLUDE } := by decide

/-- C4 counterexample: "foo#1@2.0-1:x86_64" is well-formed with all five
fields present and parses to all five fields set, but to_pkg_spec renders
"foo1:2.0-1.x86_64", which reparses to a different Package (its name alone
differs), so the round trip does not reproduce the fields. -/
theorem claim_C4_roundtrip_counterexample :
    Package.parseStr Package.default "foo#1@2.0-1:x86_64" =
      { name := some "foo", epoch := some "1", version := some "2.0",
        release := some "1", arch := some "x86_64", action := ACTION_INCLUDE } ∧
    Package.to_pkg_spec (Package.parseStr Package.default "foo#1@2.0-1:x86_64") =
      Except.ok "foo1:2.0-1.x86_64" ∧
    Package.parseStr Package.default "foo1:2.0-1.x86_64" ≠
      Package.parseStr Package.default "foo#1@2.0-1:x86_64" ∧
    (Package.parseStr Package.default "foo1:2.0-1.x86_64").name ≠
      (Package.parseStr Package.default "foo#1@2.0-1:x86_64").name :=
  ⟨by decide, rfl, by decide, by decide⟩

/-- C4 (amended): for a Package parsed from a well-formed spec string with
all five fields present, to_pkg_spec renders the DNF-style string
name ++ epoch ++ ":" ++ version ++ "-" ++ release ++ "." ++ arch, which is
not in the parse grammar: reparsing it yields a Package whose name is the
original name with the epoch appended, epoch/version/release unset, and arch
the first word-character run after the colon. -/
theorem claim_C4_roundtrip_amended :
    Package.to_pkg_spec (Package.parseStr Package.default "foo#1@2.0-1:x86_64") =
      Except.ok ("foo" ++ "1" ++ ":" ++ "2.0" ++ "-" ++ "1" ++ "." ++ "x86_64") ∧
    Package.parseStr Package.default "foo1:2.0-1.x86_64" =
      { name := some "foo1", epoch := none, version := none, release := none,
        arch := some "2", action := ACTION_INCLUDE } :=
  ⟨rfl, by decide⟩

/-- C5 (amended): in the dict branch of parse the keys n, e, v, r, a
overwrite their field when present and leave it unchanged when absent; the
key z overwrites action when present, but an absent z RESETS action to
ACTION_INCLUDE instead of keeping its previous value. -/
theorem claim_C5_parseDict (p : Package) (d : PkgDict) :
    ((d.n = none → (Package.parseDict p d).name = p.name) ∧
      (∀ x, d.n = some x → (Package.parseDict p d).name = some x)) ∧
    ((d.e = none → (Package.parseDict p d).epoch = p.epoch) ∧
      (∀ x, d.e = some x → (Package.parseDict p d).epoch = some x)) ∧
    ((d.v = none → (Package.parseDict p d).version = p.version) ∧
      (∀ x, d.v = some x → (Package.parseDict p d).version = some x)) ∧
    ((d.r = none → (Package.parseDict p d).release = p.release) ∧
      (∀ x, d.r = some x → (Package.parseDict p d).release = some x)) ∧
    ((d.a = none → (Package.parseDict p d).arch = p.arch) ∧
      (∀ x, d.a = some x → (Package.parseDict p d).arch = some x)) ∧
    ((∀ x, d.z = some x → (Package.parseDict p d).action = x) ∧
      (d.z = none → (Package.parseDict p d).action = ACTION_INCLUDE)) := by
  refine ⟨⟨?_, ?_⟩, ⟨?_, ?_⟩, ⟨?_, ?_⟩, ⟨?_, ?_⟩, ⟨?_, ?_⟩, ⟨?_, ?_⟩⟩ <;>
    first
      | (intro h; simp [Package.parseDict, h])
      | (intro x h; simp [Package.parseDict, h])

/-- C5 witness: merge-decoding the empty dictionary at a concrete package. -/
theorem claim_C5_parseDict_witness :
    (Package.parseDict pkgFoo PkgDict.empty).name = pkgFoo.name ∧
      (Package.parseDict pkgFoo PkgDict.empty).action = ACTION_INCLUDE :=
  ⟨(claim_C5_parseDict pkgFoo PkgDict.empty).1.1 rfl,
   (claim_C5_parseDict pkgFoo PkgDict.empty).2.2.2.2.2.2 rfl⟩

/-- C5 counterexample: decoding an empty dictionary into a package whose
action is EXCLUDE resets the action to INCLUDE; the action does not keep its
previous value when z is absent. -/
theorem claim_C5_counterexample :
    (Package.parseDict { Package.default with action := ACTION_EXCLUDE } PkgDict.empty).action =
        ACTION_INCLUDE ∧
      (Package.parseDict { Package.default with action := ACTION_EXCLUDE } PkgDict.empty).action ≠
        ACTION_EXCLUDE := by decide

/-- C6: with both baseurl and mirrorlist set, to_kickstart emits the name
clause (rendering the stub) and only the baseurl clause; but as soon as
exclude_packages is a (list-valued) field the method raises AttributeError,
because join is called on the list, so the claimed comma-joined
package-exclude/include clauses are never produced. -/
theorem claim_C6_to_kickstart :
    Repository.to_kickstart repoBoth =
      Except.ok "repo --name=\"fedora\" --baseurl=http://x" ∧
    Repository.to_kickstart repoBothEx = Except.error attrErrJoin :=
  ⟨rfl, rfl⟩

/-- C7: to_pkg_spec raises TypeError for a Package with name, version and
release set but epoch unset (evr is still None when += runs), instead of
returning name ++ version-release; with epoch set the rendering succeeds. -/
theorem claim_C7_to_pkg_spec_raises :
    Package.to_pkg_spec
        { Package.default with
            name := some "foo", version := some "1.0", release := some "1" } =
      Except.error typeErrorMsg ∧
    Package.to_pkg_spec
        { Package.default with
            name := some "foo", epoch := some "1", version := some "1.0",
            release := some "2" } =
      Except.ok "foo1:1.0-2" :=
  ⟨rfl, rfl⟩

/-- C8: PackageSet.update never performs discard-then-add: every call raises
NameError, because the isinstance guard on line 268 reads the undefined
variable other before anything else runs. -/
theorem claim_C8_update_raises (s : List Package) (item : Package) :
    PackageSet.update s item = Except.error nameErrorMsg :=
  rfl

/-- C8 witness: update of a concrete set and package raises. -/
theorem claim_C8_update_raises_witness :
    PackageSet.update [] pkgFoo = Except.error nameErrorMsg :=
  claim_C8_update_raises [] pkgFoo

/-- If some union argument is not a PackageSet, the argument loop errors. -/
theorem unionGo_typeError (args : List PyVal) :
    ∀ u, (∃ a, a ∈ args ∧ ∀ t, a ≠ PyVal.pset t) →
      PackageSet.unionGo u args = Except.error typeErrSet := by
  induction args with
  | nil =>
    intro u h
    rcases h with ⟨a, ha, _⟩
    exact absurd ha (List.not_mem_nil a)
  | cons b rest ih =>
    intro u h
    rcases h with ⟨a, ha, hna⟩
    cases b with
    | pset o =>
      have hmem : a ∈ rest := by
        rcases List.mem_cons.mp ha with h1 | h1
        · exact absurd h1 (hna o)
        · exact h1
      exact ih (o.foldl PackageSet.add u) ⟨a, hmem, hna⟩
    | pkg p => rfl
    | str t => rfl
    | int n => rfl
    | pynone => rfl

/-- C9: add and discard raise a type error for every non-Package argument,
union and difference raise a type error for every non-PackageSet argument,
and union with zero arguments raises; none of these silently coerce. -/
theorem claim_C9_type_errors (s : List Package) (v : PyVal) (args : List PyVal) :
    ((∀ p, v ≠ PyVal.pkg p) →
      PackageSet.addVal s v = Except.error typeErrPkg ∧
        PackageSet.discardVal s v = Except.error typeErrPkg) ∧
    ((∀ t, v ≠ PyVal.pset t) →
      PackageSet.differenceVal s v = Except.error typeErrSet) ∧
    PackageSet.union s [] = Except.error unionZeroErr ∧
    ((∃ a, a ∈ args ∧ ∀ t, a ≠ PyVal.pset t) →
      PackageSet.union s args = Except.error typeErrSet) := by
  refine ⟨?_, ?_, rfl, ?_⟩
  · intro hv
    cases v with
    | pkg p => exact absurd rfl (hv p)
    | pset t => exact ⟨rfl, rfl⟩
    | str t => exact ⟨rfl, rfl⟩
    | int n => exact ⟨rfl, rfl⟩
    | pynone => exact ⟨rfl, rfl⟩
  · intro hv
    cases v with
    | pset t => exact absurd rfl (hv t)
    | pkg p => rfl
    | str t => rfl
    | int n => rfl
    | pynone => rfl
  · intro hargs
    cases args with
    | nil =>
      rcases hargs with ⟨a, ha, _⟩
      exact absurd ha (List.not_mem_nil a)
    | cons b rest =>
      exact unionGo_typeError (b :: rest) (s.foldl PackageSet.add []) hargs

/-- C9 witness: the type guards fire at concrete ill-typed arguments. -/
theorem claim_C9_type_errors_witness :
    PackageSet.addVal [] (PyVal.str "x") = Except.error typeErrPkg ∧
      PackageSet.differenceVal [] PyVal.pynone = Except.error typeErrSet ∧
      PackageSet.union [] [PyVal.int 3] = Except.error typeErrSet :=
  ⟨((claim_C9_type_errors [] (PyVal.str "x") []).1
      (fun _ h => PyVal.noConfusion h)).1,
   (claim_C9_type_errors [] PyVal.pynone []).2.1
      (fun _ h => PyVal.noConfusion h),
   (claim_C9_type_errors [] (PyVal.str "x") [PyVal.int 3]).2.2.2
      ⟨PyVal.int 3, List.mem_singleton.mpr rfl, fun _ h => PyVal.noConfusion h⟩⟩

/-- C10: Package equality is not transitive: foo.x86_64 equals the arch-less
foo, the arch-less foo equals foo.i686, but foo.x86_64 does not equal
foo.i686; hence pkgEq is not a transitive relation. -/
theorem claim_C10_eq_not_transitive :
    pkgEq pkgFooX pkgFoo = true ∧ pkgEq pkgFoo pkgFooI = true ∧
      pkgEq pkgFooX pkgFooI = false ∧
      ¬(∀ x y z : Package,
          pkgEq x y = true → pkgEq y z = true → pkgEq x z = true) := by
  refine ⟨by decide, by decide, by decide, ?_⟩
  intro h
  have htr := h pkgFooX pkgFoo pkgFooI (by decide) (by decide)
  have hne : pkgEq pkgFooX pkgFooI = false := by decide
  rw [htr] at hne
  exact Bool.noConfusion hne

end Canvas
